import Mathlib

/-!
Shallow embedding of the Kafka pub/sub adapter (`pubsub/kafka/kafka.go`).
Go errors are modelled as `Option String` (`none` = nil error); fallible
constructors return `Except String`; a Go runtime panic is modelled as the
`none` case of an `Option` result.  Go channels used as one-shot gates are
modelled by `ChanState` (`open_` = still open, `closed` = already closed;
`close` of a closed channel panics in Go).
-/

namespace KafkaAdapter

/-- State of a Go channel used as a one-shot "ready" gate:
`make(chan bool)` yields an `open_` channel, `close` moves it to `closed`. -/
inductive ChanState where
  | open_ : ChanState
  | closed : ChanState
deriving DecidableEq, Repr

/-- A message handed to the registered callback (`pubsub.NewMessage`):
topic name plus opaque byte payload. -/
structure NewMessage where
  topic : String
  data : List Nat
deriving DecidableEq, Repr

/-- A record delivered by the consumer-group claim (`sarama.ConsumerMessage`):
its topic, payload bytes and partition offset. -/
structure ConsumerMessage where
  topic : String
  value : List Nat
  offset : Nat
deriving DecidableEq, Repr

/-- A consumer-group claim (`sarama.ConsumerGroupClaim`): one assigned
partition's topic and its (finite, for the session) sequence of records. -/
structure GroupClaim where
  topic : String
  messages : List ConsumerMessage
deriving DecidableEq, Repr

/-- The observable state of a consumer-group session
(`sarama.ConsumerGroupSession`): the offsets marked committed, in order. -/
structure SessionState where
  marked : List Nat
deriving DecidableEq, Repr

/-- `session.MarkMessage(message, "")`: mark the record's offset committed. -/
def MarkMessage (s : SessionState) (message : ConsumerMessage) : SessionState :=
  { s with marked := s.marked ++ [message.offset] }

/-- The `consumer` struct of the adapter: the "ready" gate channel and the
registered per-message callback (`nil` callback = `none`). -/
structure consumer where
  ready : ChanState
  callback : Option (NewMessage → Option String)

/-- `Setup`: `close(consumer.ready); return nil`.  Closing an
already-closed channel panics in Go, modelled by the `none` result;
otherwise the gate moves to `closed` and the returned error is nil. -/
def consumer.Setup (c : consumer) : Option (consumer × Option String) :=
  match c.ready with
  | ChanState.open_ => some ({ c with ready := ChanState.closed }, none)
  | ChanState.closed => none

/-- One iteration of the `for message := range claim.Messages()` body:
if the callback is non-nil, invoke it with the claim's topic and the
record's payload; commit the offset only when it returns nil.  The fold
state is the session plus the list of callback invocations made so far. -/
def processMessage (callback : Option (NewMessage → Option String)) (topic : String)
    (st : SessionState × List NewMessage) (message : ConsumerMessage) :
    SessionState × List NewMessage :=
  match callback with
  | none => st
  | some cb =>
    let m : NewMessage := { topic := topic, data := message.value }
    match cb m with
    | none => (MarkMessage st.1 message, st.2 ++ [m])
    | some _ => (st.1, st.2 ++ [m])

/-- `ConsumeClaim`: iterate over every record of the claim, then `return nil`.
Result: (session state and invocation log after the loop, returned error). -/
def consumer.ConsumeClaim (c : consumer) (session : SessionState)
    (claim : GroupClaim) : (SessionState × List NewMessage) × Option String :=
  (claim.messages.foldl (processMessage c.callback claim.topic) (session, []), none)

/-- `Cleanup`: `return nil`. -/
def consumer.Cleanup (_ : consumer) : Option String := none

/-! ## Configuration resolution (`getKafkaMetadata`) -/

/-- Split a character list at every occurrence of `sep`, Go
`strings.Split` semantics (the accumulator holds the current field,
reversed). -/
def splitCharsAux (sep : Char) : List Char → List Char → List (List Char)
  | [], acc => [acc.reverse]
  | c :: cs, acc =>
    if c = sep then acc.reverse :: splitCharsAux sep cs []
    else splitCharsAux sep cs (c :: acc)

/-- Go `strings.Split(s, sep)` for a one-character separator. -/
def goSplit (s : String) (sep : Char) : List String :=
  (splitCharsAux sep s.data []).map String.mk

/-- Join character lists with a single separator character (the inverse
image of a split: a "comma-joined" value). -/
def joinSep (sep : Char) : List (List Char) → List Char
  | [] => []
  | [p] => p
  | p :: q :: rest => p ++ sep :: joinSep sep (q :: rest)

/-- A comma-joined string built from its parts. -/
def commaJoin (parts : List String) : String :=
  String.mk (joinSep ',' (parts.map String.data))

/-- The `kafkaMetadata` struct: resolved connection configuration. -/
structure kafkaMetadata where
  Brokers : List String
  Topics : List String
  PublishTopic : String
  ConsumerGroup : String
deriving DecidableEq, Repr

/-- `getKafkaMetadata`: resolve the flat property map (a Go map read
`metadata.Properties[k]` defaults to `""` when the key is absent; the
two-valued read `val, ok := ...` distinguishes absence). -/
def getKafkaMetadata (props : String → Option String) : Except String kafkaMetadata :=
  let meta : kafkaMetadata :=
    { Brokers := [], Topics := [], PublishTopic := "", ConsumerGroup := "" }
  let meta := { meta with ConsumerGroup := (props "consumerGroup").getD "" }
  let meta :=
    match props "brokers" with
    | some val => if val ≠ "" then { meta with Brokers := goSplit val ',' } else meta
    | none => meta
  let meta :=
    match props "topics" with
    | some val => if val ≠ "" then { meta with Topics := goSplit val ',' } else meta
    | none => meta
  Except.ok meta

/-! ## Producer construction and the publish path -/

/-- `sarama.RequiredAcks` values relevant to the adapter. -/
inductive RequiredAcks where
  | noResponse : RequiredAcks
  | waitForLocal : RequiredAcks
  | waitForAll : RequiredAcks
deriving DecidableEq, Repr

/-- The producer configuration fields the adapter sets. -/
structure ProducerConfig where
  requiredAcks : RequiredAcks
  retryMax : Nat
  returnSuccesses : Bool
deriving DecidableEq, Repr

/-- `sarama.NewConfig()` producer defaults: `WaitForLocal`, 3 retries,
successes not returned. -/
def newConfigProducer : ProducerConfig :=
  { requiredAcks := RequiredAcks.waitForLocal, retryMax := 3, returnSuccesses := false }

/-- `getSyncProducer`: build the config (`WaitForAll`, `Retry.Max = 5`,
`Return.Successes = true`) and call the injected `sarama.NewSyncProducer`.
The second component logs every construction call made (broker list and
config handed over). -/
def getSyncProducer {P : Type} (mk : List String → ProducerConfig → Except String P)
    (meta : kafkaMetadata) : Except String P × List (List String × ProducerConfig) :=
  let config := { newConfigProducer with
                  requiredAcks := RequiredAcks.waitForAll,
                  retryMax := 5,
                  returnSuccesses := true }
  (mk meta.Brokers config, [(meta.Brokers, config)])

/-- The `Kafka` struct; `P` is the type of the live producer handle
(`sarama.SyncProducer`), `none` while uninitialized. -/
structure Kafka (P : Type) where
  producer : Option P
  topics : List String
  consumerGroup : String
  brokers : List String

/-- `Init`: parse metadata, construct the producer, and only then assign
the four fields.  Returns (returned error, resulting struct) and the log
of producer-construction calls performed. -/
def Init {P : Type} (mk : List String → ProducerConfig → Except String P)
    (k : Kafka P) (props : String → Option String) :
    (Option String × Kafka P) × List (List String × ProducerConfig) :=
  match getKafkaMetadata props with
  | Except.error e => ((some e, k), [])
  | Except.ok meta =>
    match getSyncProducer mk meta with
    | (Except.error e, log) => ((some e, k), log)
    | (Except.ok p, log) =>
      ((none, { k with brokers := meta.Brokers,
                       producer := some p,
                       topics := meta.Topics,
                       consumerGroup := meta.ConsumerGroup }), log)

/-- A message handed to `producer.SendMessage` (`sarama.ProducerMessage`):
the fields the adapter fills. -/
structure ProducerMessage where
  topic : String
  value : List Nat
deriving DecidableEq, Repr

/-- A publish request (`pubsub.PublishRequest`): topic plus payload bytes. -/
structure PublishRequest where
  Topic : String
  Data : List Nat
deriving DecidableEq, Repr

/-- `Publish`: build one `ProducerMessage` from the request, hand it to the
producer's `SendMessage` (modelled by the injected `send`, which returns
partition and offset or a transport error), and return its error unchanged
(nil on success).  The second component logs every send performed. -/
def Publish (send : ProducerMessage → Except String (Int × Int))
    (req : PublishRequest) : Option String × List ProducerMessage :=
  let msg : ProducerMessage := { topic := req.Topic, value := req.Data }
  match send msg with
  | Except.ok _ => (none, [msg])
  | Except.error e => (some e, [msg])

/-! ## The outer consume loop and Subscribe's return value -/

/-- What the environment does during one `client.Consume` invocation:
the error `Consume` returns (logged only), whether `Setup` released the
ready gate during the session, and the value of the `ctx.Err() != nil`
check made after `Consume` returns. -/
structure IterEvent where
  consumeErr : Option String
  setupFired : Bool
  cancelled : Bool
deriving DecidableEq, Repr

/-- The `for` loop of the consume goroutine, driven by a finite trace of
iteration events.  Returns the value of `cs.ready` at the start of each
`Consume` invocation, and whether the loop exited through the cancellation
check (`false` = trace exhausted with the loop still running).  When not
cancelled the loop executes `cs.ready = make(chan bool)`: a fresh open
gate. -/
def consumeLoop : ChanState → List IterEvent → List ChanState × Bool
  | _, [] => ([], false)
  | g, e :: rest =>
    if e.cancelled then ([g], true)
    else
      let r := consumeLoop ChanState.open_ rest
      (g :: r.1, r.2)

/-- The tail of `Subscribe` after `wg.Wait()`: the shared `err` variable
(last written by the consume loop) is overwritten by `client.Close()`, and
`Subscribe` returns it (nil when `Close` succeeded). -/
def subscribeReturn (loopErr closeErr : Option String) : Option String :=
  let err := loopErr
  let err := closeErr
  match err with
  | some e => some e
  | none => none

/-! ## Helper lemmas -/

theorem mk_data (s : String) : String.mk s.data = s := rfl

theorem splitCharsAux_no_sep (sep : Char) (p : List Char) (hp : sep ∉ p) :
    ∀ cs acc, splitCharsAux sep (p ++ cs) acc = splitCharsAux sep cs (p.reverse ++ acc) := by
  induction p with
  | nil => intro cs acc; simp
  | cons c p ih =>
    intro cs acc
    have hc : ¬ c = sep := fun h => hp (h ▸ List.mem_cons_self c p)
    have hp' : sep ∉ p := fun h => hp (List.mem_cons_of_mem c h)
    rw [List.cons_append]
    simp only [splitCharsAux, if_neg hc]
    rw [ih hp' cs (c :: acc)]
    simp [List.append_assoc]

theorem splitCharsAux_joinSep (sep : Char) (parts : List (List Char))
    (hne : parts ≠ []) (hsep : ∀ p ∈ parts, sep ∉ p) :
    splitCharsAux sep (joinSep sep parts) [] = parts := by
  induction parts with
  | nil => exact absurd rfl hne
  | cons p rest ih =>
    have hp : sep ∉ p := hsep p (List.mem_cons_self p rest)
    cases rest with
    | nil =>
      have h := splitCharsAux_no_sep sep p hp [] []
      simp only [List.append_nil] at h
      simp [joinSep, h, splitCharsAux]
    | cons q rest =>
      have hrest : ∀ x ∈ q :: rest, sep ∉ x :=
        fun x hx => hsep x (List.mem_cons_of_mem p hx)
      have h := splitCharsAux_no_sep sep p hp (sep :: joinSep sep (q :: rest)) []
      simp only [joinSep, h, List.append_nil, splitCharsAux, if_pos rfl,
        List.reverse_reverse]
      exact congrArg _ (ih (by simp) hrest)

theorem goSplit_commaJoin (parts : List String) (hne : parts ≠ [])
    (hsep : ∀ p ∈ parts, ',' ∉ p.data) :
    goSplit (commaJoin parts) ',' = parts := by
  have hmapne : parts.map String.data ≠ [] := by
    simpa using hne
  have hmapsep : ∀ q ∈ parts.map String.data, ',' ∉ q := by
    intro q hq
    obtain ⟨p, hp, rfl⟩ := List.mem_map.mp hq
    exact hsep p hp
  unfold goSplit commaJoin
  rw [show (String.mk (joinSep ',' (parts.map String.data))).data
        = joinSep ',' (parts.map String.data) from rfl]
  rw [splitCharsAux_joinSep ',' (parts.map String.data) hmapne hmapsep]
  rw [List.map_map]
  exact List.map_id'' (fun s => mk_data s) parts

theorem foldl_processMessage_none (topic : String) (msgs : List ConsumerMessage)
    (st : SessionState × List NewMessage) :
    msgs.foldl (processMessage none topic) st = st := by
  induction msgs generalizing st with
  | nil => rfl
  | cons m rest ih => exact ih st

theorem foldl_processMessage_some (cb : NewMessage → Option String) (topic : String)
    (msgs : List ConsumerMessage) :
    ∀ (s : SessionState) (inv : List NewMessage),
      msgs.foldl (processMessage (some cb) topic) (s, inv) =
        (⟨s.marked ++
            ((msgs.filter fun m => (cb { topic := topic, data := m.value }).isNone).map
              ConsumerMessage.offset)⟩,
          inv ++ msgs.map fun m => { topic := topic, data := m.value }) := by
  induction msgs with
  | nil => intro s inv; simp
  | cons m rest ih =>
    intro s inv
    cases hcb : cb { topic := topic, data := m.value } with
    | none =>
      simp only [List.foldl_cons, processMessage, hcb]
      simp only [ih]
      simp [MarkMessage, List.filter_cons, hcb, List.append_assoc]
    | some e =>
      simp only [List.foldl_cons, processMessage, hcb]
      simp only [ih]
      simp [List.filter_cons, hcb, List.append_assoc]

theorem consumeLoop_all_open (events : List IterEvent) :
    ∀ x ∈ (consumeLoop ChanState.open_ events).1, x = ChanState.open_ := by
  induction events with
  | nil => intro x hx; simp [consumeLoop] at hx
  | cons e rest ih =>
    intro x hx
    by_cases hc : e.cancelled
    · simp [consumeLoop, hc] at hx
      exact hx
    · simp only [consumeLoop, if_neg hc, List.mem_cons] at hx
      rcases hx with h | h
      · exact h
      · exact ih x h

theorem consumeLoop_gates (g : ChanState) (events : List IterEvent) :
    ∀ x ∈ (consumeLoop g events).1.tail, x = ChanState.open_ := by
  cases events with
  | nil => intro x hx; simp [consumeLoop] at hx
  | cons e rest =>
    intro x hx
    by_cases hc : e.cancelled
    · simp [consumeLoop, hc] at hx
    · simp only [consumeLoop, if_neg hc, List.tail_cons] at hx
      exact consumeLoop_all_open rest x hx

theorem consumeLoop_cancelled (g : ChanState) (events : List IterEvent)
    (i : Nat) (hi : i < events.length)
    (hc : (events.get ⟨i, hi⟩).cancelled = true)
    (hb : ∀ e ∈ events.take i, e.cancelled = false) :
    (consumeLoop g events).1.length = i + 1 ∧ (consumeLoop g events).2 = true := by
  induction events generalizing g i with
  | nil => simp at hi
  | cons e rest ih =>
    cases i with
    | zero =>
      have hc0 : e.cancelled = true := hc
      simp [consumeLoop, hc0]
    | succ i =>
      have he : e.cancelled = false := hb e (by simp [List.take_succ_cons])
      have hb' : ∀ x ∈ rest.take i, x.cancelled = false := by
        intro x hx
        exact hb x (by simp [List.take_succ_cons, hx])
      have hi' : i < rest.length := by
        simpa [Nat.succ_lt_succ_iff] using hi
      have hc' : (rest.get ⟨i, hi'⟩).cancelled = true := hc
      have h := ih ChanState.open_ i hi' hc' hb'
      simp only [consumeLoop, he, Bool.false_eq_true, if_false, List.length_cons]
      exact ⟨by rw [h.1], h.2⟩

theorem getKafkaMetadata_eq (props : String → Option String) :
    getKafkaMetadata props = Except.ok
      { Brokers :=
          match props "brokers" with
          | some val => if val ≠ "" then goSplit val ',' else []
          | none => [],
        Topics :=
          match props "topics" with
          | some val => if val ≠ "" then goSplit val ',' else []
          | none => [],
        PublishTopic := "",
        ConsumerGroup := (props "consumerGroup").getD "" } := by
  unfold getKafkaMetadata
  cases props "brokers" <;> cases props "topics" <;> simp <;> split_ifs <;> rfl

/-- C6: whenever `brokers` and `topics` are present as non-empty
comma-joined strings, the resolver splits each on `,` into exactly the
joined parts (order preserved, single-element values unchanged), and
`consumerGroup` is passed through raw. -/
theorem C6_resolver_splits_on_comma (props : String → Option String)
    (bparts tparts : List String)
    (hbne : bparts ≠ []) (htne : tparts ≠ [])
    (hbc : ∀ p ∈ bparts, ',' ∉ p.data) (htc : ∀ p ∈ tparts, ',' ∉ p.data)
    (hb : props "brokers" = some (commaJoin bparts))
    (hbv : commaJoin bparts ≠ "")
    (ht : props "topics" = some (commaJoin tparts))
    (htv : commaJoin tparts ≠ "") :
    getKafkaMetadata props = Except.ok
      { Brokers := bparts, Topics := tparts, PublishTopic := "",
        ConsumerGroup := (props "consumerGroup").getD "" } := by
  rw [getKafkaMetadata_eq props, hb, ht]
  simp only [if_pos hbv, if_pos htv,
    goSplit_commaJoin bparts hbne hbc, goSplit_commaJoin tparts htne htc]

/-- Concrete property map of the spec scenario:
`{"consumerGroup":"a","brokers":"a","topics":"a"}`. -/
def scenarioProps : String → Option String := fun key =>
  if key = "consumerGroup" then some "a"
  else if key = "brokers" then some "a"
  else if key = "topics" then some "a"
  else none

/-- Witness for C6: on the scenario map the resolved configuration has
`Brokers = ["a"]`, `Topics = ["a"]`, `ConsumerGroup = "a"`. -/
theorem C6_witness :
    getKafkaMetadata scenarioProps = Except.ok
      { Brokers := ["a"], Topics := ["a"], PublishTopic := "",
        ConsumerGroup := "a" } :=
  C6_resolver_splits_on_comma scenarioProps ["a"] ["a"]
    (by decide) (by decide) (by decide) (by decide)
    (by decide) (by decide) (by decide) (by decide)

/-- C7: the resolver always returns success, and a missing or empty
`brokers`/`topics` value yields an empty list while `consumerGroup`
resolves to the raw map read (empty string when absent). -/
theorem C7_resolver_total (props : String → Option String) :
    ∃ meta, getKafkaMetadata props = Except.ok meta ∧
      ((props "brokers").getD "" = "" → meta.Brokers = []) ∧
      ((props "topics").getD "" = "" → meta.Topics = []) ∧
      meta.ConsumerGroup = (props "consumerGroup").getD "" := by
  refine ⟨_, getKafkaMetadata_eq props, ?_, ?_, rfl⟩
  · intro h
    cases hbv : props "brokers" with
    | none => simp
    | some val =>
      have hv : val = "" := by simpa [hbv] using h
      simp [hv]
  · intro h
    cases htv : props "topics" with
    | none => simp
    | some val =>
      have hv : val = "" := by simpa [htv] using h
      simp [hv]

/-- Witness for C7: the empty property map resolves successfully to empty
broker and topic lists and an empty consumer group. -/
theorem C7_witness :
    ∃ meta, getKafkaMetadata (fun _ => none) = Except.ok meta ∧
      meta.Brokers = [] ∧ meta.Topics = [] ∧ meta.ConsumerGroup = "" := by
  obtain ⟨m, h1, h2, h3, h4⟩ := C7_resolver_total (fun _ => none)
  exact ⟨m, h1, h2 rfl, h3 rfl, h4⟩

/-- C1: for a claim whose records carry the claim's topic and pairwise
distinct offsets, starting from a session with nothing committed, a
record's offset is marked committed if and only if the registered callback
was invoked with that record's topic and payload and returned success (and
the callback is indeed invoked for every record). -/
theorem C1_commit_iff_callback_ok (g : ChanState)
    (cb : NewMessage → Option String) (claim : GroupClaim) (m : ConsumerMessage)
    (hm : m ∈ claim.messages)
    (htop : ∀ x ∈ claim.messages, x.topic = claim.topic)
    (hnodup : (claim.messages.map ConsumerMessage.offset).Nodup) :
    ({ topic := m.topic, data := m.value } : NewMessage) ∈
        (consumer.ConsumeClaim ⟨g, some cb⟩ ⟨[]⟩ claim).1.2 ∧
      (m.offset ∈ (consumer.ConsumeClaim ⟨g, some cb⟩ ⟨[]⟩ claim).1.1.marked ↔
        cb { topic := m.topic, data := m.value } = none) := by
  have hmt : m.topic = claim.topic := htop m hm
  unfold consumer.ConsumeClaim
  rw [foldl_processMessage_some]
  simp only [List.nil_append]
  constructor
  · rw [hmt]
    exact List.mem_map.mpr ⟨m, hm, rfl⟩
  · constructor
    · intro hmem
      obtain ⟨x, hxf, hxo⟩ := List.mem_map.mp hmem
      have hx : x ∈ claim.messages ∧
          (cb { topic := claim.topic, data := x.value }).isNone = true :=
        List.mem_filter.mp hxf
      have hxm : x = m :=
        List.inj_on_of_nodup_map hnodup hx.1 hm hxo
      rw [hmt]
      rw [hxm] at hx
      exact Option.isNone_iff_eq_none.mp hx.2
    · intro hok
      rw [hmt] at hok
      refine List.mem_map.mpr ⟨m, List.mem_filter.mpr ⟨hm, ?_⟩, rfl⟩
      exact Option.isNone_iff_eq_none.mpr hok

/-- Witness for C1: a two-record claim where the callback succeeds on the
first payload and fails on the second; the first record's offset is
committed, tested through the theorem's iff. -/
theorem C1_witness :
    ({ topic := "t", data := [1] } : NewMessage) ∈
        (consumer.ConsumeClaim
          ⟨ChanState.open_, some fun msg => if msg.data = [1] then none else some "fail"⟩
          ⟨[]⟩
          { topic := "t",
            messages := [{ topic := "t", value := [1], offset := 5 },
                         { topic := "t", value := [2], offset := 6 }] }).1.2 ∧
      (5 ∈ (consumer.ConsumeClaim
          ⟨ChanState.open_, some fun msg => if msg.data = [1] then none else some "fail"⟩
          ⟨[]⟩
          { topic := "t",
            messages := [{ topic := "t", value := [1], offset := 5 },
                         { topic := "t", value := [2], offset := 6 }] }).1.1.marked ↔
        (fun msg => if msg.data = [1] then none else some "fail")
          ({ topic := "t", data := [1] } : NewMessage) = none) :=
  C1_commit_iff_callback_ok ChanState.open_
    (fun msg => if msg.data = [1] then none else some "fail")
    { topic := "t",
      messages := [{ topic := "t", value := [1], offset := 5 },
                   { topic := "t", value := [2], offset := 6 }] }
    { topic := "t", value := [1], offset := 5 }
    (by decide) (by decide) (by decide)

/-- C10: with a nil callback, `ConsumeClaim` traverses the whole claim,
invokes nothing, commits nothing, and returns success. -/
theorem C10_nil_callback_no_commit (g : ChanState) (s : SessionState)
    (claim : GroupClaim) :
    consumer.ConsumeClaim ⟨g, none⟩ s claim = ((s, []), none) := by
  unfold consumer.ConsumeClaim
  rw [foldl_processMessage_none]

/-- Counterexample for C2 as stated: calling `Setup` a second time on the
same consumer instance is not safe — the second `close` of the ready
channel faults (Go panic, modelled as `none`). -/
theorem C2_counterexample :
    (consumer.Setup { ready := ChanState.open_, callback := none }).bind
      (fun r => consumer.Setup r.1) = none := rfl

/-- C2 (amended): only the first `Setup` call releases the ready gate and
returns nil; a `Setup` call on an instance whose gate is already released
does not return — it faults by closing an already-closed channel. -/
theorem C2_first_setup_releases (c : consumer) :
    (c.ready = ChanState.open_ →
      c.Setup = some ({ c with ready := ChanState.closed }, none)) ∧
    (c.ready = ChanState.closed → c.Setup = none) := by
  constructor <;> intro h <;> simp [consumer.Setup, h]

/-- Witness for C2: concrete first and second `Setup` calls. -/
theorem C2_witness :
    ({ ready := ChanState.open_, callback := none } : consumer).Setup =
        some ({ ready := ChanState.closed, callback := none }, none) ∧
      ({ ready := ChanState.closed, callback := none } : consumer).Setup = none :=
  ⟨(C2_first_setup_releases { ready := ChanState.open_, callback := none }).1 rfl,
   (C2_first_setup_releases { ready := ChanState.closed, callback := none }).2 rfl⟩

/-- C3: `Publish` performs exactly one send, carrying exactly the request's
topic and payload; it returns nil iff that send succeeded, and on failure
it returns the transport error unchanged. -/
theorem C3_publish_one_send (send : ProducerMessage → Except String (Int × Int))
    (req : PublishRequest) :
    (Publish send req).2 = [{ topic := req.Topic, value := req.Data }] ∧
      ((Publish send req).1 = none ↔
        (send { topic := req.Topic, value := req.Data }).isOk = true) ∧
      ∀ e, send { topic := req.Topic, value := req.Data } = Except.error e →
        (Publish send req).1 = some e := by
  unfold Publish
  cases h : send { topic := req.Topic, value := req.Data } <;>
    simp [h, Except.isOk, Except.toBool]

/-- Witness for C3: the spec scenario (`topic="orders"`, `data=[1,2,3]`)
against an always-acknowledging producer records exactly one send with
those field values and returns success; against a failing producer the
transport error comes back unchanged. -/
theorem C3_witness :
    (Publish (fun _ => Except.ok (0, 0)) { Topic := "orders", Data := [1, 2, 3] }).2 =
        [{ topic := "orders", value := [1, 2, 3] }] ∧
      (Publish (fun _ => Except.ok (0, 0)) { Topic := "orders", Data := [1, 2, 3] }).1 =
        none ∧
      (Publish (fun _ => Except.error "broker down")
          { Topic := "orders", Data := [1, 2, 3] }).1 = some "broker down" :=
  ⟨(C3_publish_one_send (fun _ => Except.ok (0, 0))
      { Topic := "orders", Data := [1, 2, 3] }).1,
   (C3_publish_one_send (fun _ => Except.ok (0, 0))
      { Topic := "orders", Data := [1, 2, 3] }).2.1.mpr rfl,
   (C3_publish_one_send (fun _ => Except.error "broker down")
      { Topic := "orders", Data := [1, 2, 3] }).2.2 "broker down" rfl⟩

/-- C5: `Subscribe`'s return value after shutdown is exactly the close
result — the `err` last written by the consume loop is overwritten — and
`ConsumeClaim` always returns nil, so per-message callback errors can
never surface in `Subscribe`'s return value. -/
theorem C5_return_is_close_error (loopErr closeErr : Option String)
    (g : ChanState) (cb : Option (NewMessage → Option String))
    (s : SessionState) (claim : GroupClaim) :
    subscribeReturn loopErr closeErr = closeErr ∧
      (consumer.ConsumeClaim ⟨g, cb⟩ s claim).2 = none := by
  constructor
  · cases closeErr <;> rfl
  · rfl

/-- C4: if the `i`-th `Consume` return is the first at which the
cancellation check `ctx.Err() != nil` holds, the loop exits through that
check having invoked `Consume` exactly `i + 1` times — never again after
observing cancellation — and every invocation after the first starts with
a freshly made, unreleased ready gate. -/
theorem C4_loop_exit_and_fresh_gate (g : ChanState) (events : List IterEvent)
    (i : Nat) (hi : i < events.length)
    (hc : (events.get ⟨i, hi⟩).cancelled = true)
    (hb : ∀ e ∈ events.take i, e.cancelled = false) :
    (consumeLoop g events).2 = true ∧
      (consumeLoop g events).1.length = i + 1 ∧
      ∀ x ∈ (consumeLoop g events).1.tail, x = ChanState.open_ := by
  obtain ⟨h1, h2⟩ := consumeLoop_cancelled g events i hi hc hb
  exact ⟨h2, h1, consumeLoop_gates g events⟩

/-- Witness for C4: a trace whose first iteration sees a transient error
and no cancellation and whose second is cancelled — two `Consume` calls,
clean exit, fresh gate at the restart. -/
theorem C4_witness :
    (consumeLoop ChanState.open_
        [{ consumeErr := some "transient", setupFired := true, cancelled := false },
         { consumeErr := none, setupFired := false, cancelled := true }]).2 = true ∧
      (consumeLoop ChanState.open_
        [{ consumeErr := some "transient", setupFired := true, cancelled := false },
         { consumeErr := none, setupFired := false, cancelled := true }]).1.length = 2 ∧
      ∀ x ∈ (consumeLoop ChanState.open_
        [{ consumeErr := some "transient", setupFired := true, cancelled := false },
         { consumeErr := none, setupFired := false, cancelled := true }]).1.tail,
        x = ChanState.open_ :=
  C4_loop_exit_and_fresh_gate ChanState.open_
    [{ consumeErr := some "transient", setupFired := true, cancelled := false },
     { consumeErr := none, setupFired := false, cancelled := true }]
    1 (by decide) (by decide) (by decide)

theorem Init_eq {P : Type} (mk : List String → ProducerConfig → Except String P)
    (k : Kafka P) (props : String → Option String) (meta : kafkaMetadata)
    (hm : getKafkaMetadata props = Except.ok meta) :
    Init mk k props =
      match mk meta.Brokers
          { requiredAcks := RequiredAcks.waitForAll, retryMax := 5,
            returnSuccesses := true } with
      | Except.error e =>
        ((some e, k),
          [(meta.Brokers,
            { requiredAcks := RequiredAcks.waitForAll, retryMax := 5,
              returnSuccesses := true })])
      | Except.ok p =>
        ((none, { k with brokers := meta.Brokers, producer := some p,
                         topics := meta.Topics,
                         consumerGroup := meta.ConsumerGroup }),
          [(meta.Brokers,
            { requiredAcks := RequiredAcks.waitForAll, retryMax := 5,
              returnSuccesses := true })]) := by
  unfold Init
  rw [hm]
  simp only [getSyncProducer]
  cases mk meta.Brokers
      { requiredAcks := RequiredAcks.waitForAll, retryMax := 5,
        returnSuccesses := true } <;> rfl

/-- C8: on every `Init`, exactly one producer construction is performed,
handed the resolved broker list and a config with acknowledgment mode
wait-for-all, max retries 5 and return-success-results enabled; `Publish`
takes the stored handle and constructs nothing. -/
theorem C8_producer_built_once {P : Type}
    (mk : List String → ProducerConfig → Except String P)
    (k : Kafka P) (props : String → Option String) (meta : kafkaMetadata)
    (hm : getKafkaMetadata props = Except.ok meta) :
    (Init mk k props).2 =
      [(meta.Brokers,
        { requiredAcks := RequiredAcks.waitForAll, retryMax := 5,
          returnSuccesses := true })] := by
  rw [Init_eq mk k props meta hm]
  cases mk meta.Brokers
      { requiredAcks := RequiredAcks.waitForAll, retryMax := 5,
        returnSuccesses := true } <;> rfl

/-- Witness for C8: initializing with the scenario map performs exactly one
producer construction with brokers `["a"]` and the configured acks/retry
settings. -/
theorem C8_witness :
    (Init (fun _ _ => (Except.ok () : Except String Unit))
        { producer := none, topics := [], consumerGroup := "", brokers := [] }
        scenarioProps).2 =
      [(["a"],
        { requiredAcks := RequiredAcks.waitForAll, retryMax := 5,
          returnSuccesses := true })] :=
  C8_producer_built_once (fun _ _ => (Except.ok () : Except String Unit))
    { producer := none, topics := [], consumerGroup := "", brokers := [] }
    scenarioProps
    { Brokers := ["a"], Topics := ["a"], PublishTopic := "", ConsumerGroup := "a" }
    rfl

/-- C9: `Init` is atomic on error — when the producer constructor fails,
`Init` returns that exact error and leaves the adapter struct unchanged —
and on the all-success path it returns nil and assigns exactly the
resolved fields and the constructed producer.  (Metadata parsing is the
other failure source of the claim; it is unreachable because the resolver
is total, proved in `getKafkaMetadata_eq`.) -/
theorem C9_init_atomic {P : Type}
    (mk : List String → ProducerConfig → Except String P)
    (k : Kafka P) (props : String → Option String) (meta : kafkaMetadata)
    (hm : getKafkaMetadata props = Except.ok meta) :
    (∀ e, mk meta.Brokers
          { requiredAcks := RequiredAcks.waitForAll, retryMax := 5,
            returnSuccesses := true } = Except.error e →
        (Init mk k props).1.1 = some e ∧ (Init mk k props).1.2 = k) ∧
      (∀ p, mk meta.Brokers
          { requiredAcks := RequiredAcks.waitForAll, retryMax := 5,
            returnSuccesses := true } = Except.ok p →
        (Init mk k props).1.1 = none ∧
          (Init mk k props).1.2 =
            { producer := some p, topics := meta.Topics,
              consumerGroup := meta.ConsumerGroup, brokers := meta.Brokers }) := by
  rw [Init_eq mk k props meta hm]
  constructor
  · intro e he
    rw [he]
    exact ⟨rfl, rfl⟩
  · intro p hp
    rw [hp]
    exact ⟨rfl, rfl⟩

/-- Witness for C9: a constructor failing with "no brokers" makes `Init`
return exactly that error with the zero-valued adapter unchanged; a
succeeding constructor makes `Init` return nil and assign the resolved
(empty) fields and the handle. -/
theorem C9_witness :
    ((Init (fun _ _ => (Except.error "no brokers" : Except String Unit))
          { producer := none, topics := [], consumerGroup := "", brokers := [] }
          (fun _ => none)).1.1 = some "no brokers" ∧
      (Init (fun _ _ => (Except.error "no brokers" : Except String Unit))
          { producer := none, topics := [], consumerGroup := "", brokers := [] }
          (fun _ => none)).1.2 =
        ({ producer := none, topics := [], consumerGroup := "", brokers := [] } :
          Kafka Unit)) ∧
    ((Init (fun _ _ => (Except.ok () : Except String Unit))
          { producer := none, topics := [], consumerGroup := "", brokers := [] }
          (fun _ => none)).1.1 = none ∧
      (Init (fun _ _ => (Except.ok () : Except String Unit))
          { producer := none, topics := [], consumerGroup := "", brokers := [] }
          (fun _ => none)).1.2 =
        { producer := some (), topics := [], consumerGroup := "", brokers := [] }) :=
  ⟨(C9_init_atomic (fun _ _ => (Except.error "no brokers" : Except String Unit))
      { producer := none, topics := [], consumerGroup := "", brokers := [] }
      (fun _ => none)
      { Brokers := [], Topics := [], PublishTopic := "", ConsumerGroup := "" }
      rfl).1 "no brokers" rfl,
   (C9_init_atomic (fun _ _ => (Except.ok () : Except String Unit))
      { producer := none, topics := [], consumerGroup := "", brokers := [] }
      (fun _ => none)
      { Brokers := [], Topics := [], PublishTopic := "", ConsumerGroup := "" }
      rfl).2 () rfl⟩

end KafkaAdapter
